import Mathlib

/-!
Shallow embedding of the tox-conda plugin (src/tox_conda/plugin.py and
src/tox_conda/FilteredInfo.py).

Python values are modelled as follows: optional strings and optional lists
become `Option`; Python truthiness (`None`, `""` and `[]` are falsy) is made
explicit by `truthyS` / `truthyL`; the filesystem, path resolution, the YAML
loader, the environment variables and the temporary-file name generator are
bundled into a `Sys` record of total functions; subprocess execution is a
function from the command's argument vector to its exit code.  Exceptions
become `Except`.
-/

namespace ToxConda

/-- Python truthiness of an optional string: `None` and `""` are falsy. -/
def truthyS : Option String → Bool
  | none => false
  | some s => !(s == "")

/-- Python truthiness of an optional list: `None` and `[]` are falsy. -/
def truthyL : Option (List String) → Bool
  | none => false
  | some l => !l.isEmpty

/-- Parsed content of a conda environment YAML file: its `name` entry and its
`dependencies` list (the only fields the plugin reads). -/
structure EnvFile where
  name : String
  dependencies : List String
deriving Repr, DecidableEq

/-- The host-provided per-environment configuration read through `self.conf`.
`conda_deps` holds the already-unrolled dependency lines
(`self.conf["conda_deps"].unroll()[1]`). -/
structure Conf where
  conda_name : Option String
  conda_env : Option String
  conda_spec : Option String
  conda_deps : List String
  conda_channels : Option (List String)
  conda_install_args : Option (List String)
  conda_create_args : Option (List String)
  env_dir : String
deriving Repr, DecidableEq

/-- The runner options object; `getattr(self.options, "conda_name", None)`. -/
structure Options where
  conda_name : Option String
deriving Repr, DecidableEq

/-- The ambient system: path resolution (`Path(...).resolve()`), the YAML
loader, raw file reads (by absolute path), the process working directory,
environment variables, the result of `shutil.which("conda")`, and the name
handed out by `tempfile.NamedTemporaryFile`.  All are total functions: the
claims under study never exercise a missing file. -/
structure Sys where
  resolve : String → String
  yamlLoad : String → EnvFile
  readBytes : String → List Nat
  cwd : String
  getenv : String → Option String
  which_conda : Option String
  tmpName : String

/-! ### SHA-1 (`hashlib.sha1`), over byte lists, all words reduced mod 2^32 -/

/-- 2^32, the modulus for SHA-1 word arithmetic. -/
def w32 : Nat := 4294967296

/-- Left-rotation of a 32-bit word. -/
def rotl32 (n x : Nat) : Nat := ((x <<< n) % w32) ||| (x >>> (32 - n))

/-- SHA-1 round function, by round index `t`. -/
def sha1_f (t b c d : Nat) : Nat :=
  if t < 20 then (b &&& c) ||| ((b ^^^ 4294967295) &&& d)
  else if t < 40 then b ^^^ c ^^^ d
  else if t < 60 then (b &&& c) ||| (b &&& d) ||| (c &&& d)
  else b ^^^ c ^^^ d

/-- SHA-1 round constant, by round index `t`. -/
def sha1_k (t : Nat) : Nat :=
  if t < 20 then 1518500249
  else if t < 40 then 1859775393
  else if t < 60 then 2400959708
  else 3395469782

/-- Merkle–Damgård padding: `0x80`, zeros, then the 64-bit big-endian bit
length; the result's length is a multiple of 64 bytes. -/
def sha1_pad (msg : List Nat) : List Nat :=
  let ml := 8 * msg.length
  let zeros := (64 - ((msg.length + 9) % 64)) % 64
  msg ++ [128] ++ List.replicate zeros 0 ++
    [(ml >>> 56) % 256, (ml >>> 48) % 256, (ml >>> 40) % 256, (ml >>> 32) % 256,
     (ml >>> 24) % 256, (ml >>> 16) % 256, (ml >>> 8) % 256, ml % 256]

/-- Group bytes into big-endian 32-bit words. -/
def toWords : List Nat → List Nat
  | a :: b :: c :: d :: rest => (((a * 256 + b) * 256 + c) * 256 + d) :: toWords rest
  | _ => []

/-- Group words into 16-word blocks (`cur` collects the current block in
reverse, `n` counts its words; the padded input is never ragged). -/
def toBlocksAux : List Nat → List Nat → Nat → List (List Nat)
  | [], cur, _ => if cur.isEmpty then [] else [cur.reverse]
  | w :: ws, cur, n =>
      if n == 15 then (w :: cur).reverse :: toBlocksAux ws [] 0
      else toBlocksAux ws (w :: cur) (n + 1)

/-- Group words into 16-word blocks. -/
def toBlocks (ws : List Nat) : List (List Nat) := toBlocksAux ws [] 0

/-- Extend the message schedule: `rws` is the schedule so far, most recent
word first; `n` words remain to be produced. -/
def sha1_extend (rws : List Nat) : Nat → List Nat
  | 0 => rws.reverse
  | n + 1 =>
      sha1_extend
        (rotl32 1 (rws.getD 2 0 ^^^ rws.getD 7 0 ^^^ rws.getD 13 0 ^^^ rws.getD 15 0) :: rws)
        n

/-- The 80-word message schedule of one block. -/
def sha1_schedule (block : List Nat) : List Nat :=
  sha1_extend block.reverse 64

/-- One compression round; the state is `(t, a, b, c, d, e)`. -/
def sha1_round (st : Nat × Nat × Nat × Nat × Nat × Nat) (w : Nat) :
    Nat × Nat × Nat × Nat × Nat × Nat :=
  let (t, a, b, c, d, e) := st
  let tmp := (rotl32 5 a + sha1_f t b c d + e + sha1_k t + w) % w32
  (t + 1, tmp, a, rotl32 30 b, c, d)

/-- Compress one 16-word block into the running hash state. -/
def sha1_compress (h : Nat × Nat × Nat × Nat × Nat) (block : List Nat) :
    Nat × Nat × Nat × Nat × Nat :=
  let (h0, h1, h2, h3, h4) := h
  let (_, a, b, c, d, e) := (sha1_schedule block).foldl sha1_round (0, h0, h1, h2, h3, h4)
  ((h0 + a) % w32, (h1 + b) % w32, (h2 + c) % w32, (h3 + d) % w32, (h4 + e) % w32)

/-- One lowercase hex digit. -/
def hexDigit (n : Nat) : Char :=
  if n < 10 then Char.ofNat (48 + n) else Char.ofNat (87 + n)

/-- Eight lowercase hex digits of a 32-bit word. -/
def toHex32 (x : Nat) : String :=
  String.mk ((List.range 8).map fun i => hexDigit ((x >>> (28 - 4 * i)) % 16))

/-- `hashlib.sha1(bytes).hexdigest()`. -/
def sha1_hex (msg : List Nat) : String :=
  let blocks := toBlocks (toWords (sha1_pad msg))
  let (h0, h1, h2, h3, h4) :=
    blocks.foldl sha1_compress (1732584193, 4023233417, 2562383102, 271733878, 3285377520)
  toHex32 h0 ++ toHex32 h1 ++ toHex32 h2 ++ toHex32 h3 ++ toHex32 h4

/-! ### `hash_file` and the cache fingerprint (`python_cache`) -/

/-- Characters after the last `/` (`acc` collects the current component in
reverse). -/
def baseNameChars : List Char → List Char → List Char
  | [], acc => acc.reverse
  | c :: rest, acc =>
      if c = '/' then baseNameChars rest [] else baseNameChars rest (c :: acc)

/-- `Path(p).name`: the final component of a (resolved, non-directory)
path. -/
def baseName (p : String) : String := String.mk (baseNameChars p.data [])

/-- `hash_file(file)` from plugin.py.  The source opens `file.name` — the
*basename* of the path — so the operating system resolves it against the
process working directory: the bytes hashed are those of `cwd/basename`,
not of `file` itself. -/
def hash_file (sys : Sys) (file : String) : String :=
  sha1_hex (sys.readBytes (sys.cwd ++ "/" ++ baseName file))

/-- The `"conda"` entry of the cache fingerprint built by `python_cache`:
a dictionary whose optional keys are `Option` fields (`none` = key absent). -/
structure CondaDict where
  env_spec : String
  env : String
  env_path : Option String := none
  env_hash : Option String := none
  deps : Option (List String) := none
  spec : Option String := none
  spec_hash : Option String := none
  channels : Option (List String) := none
  install_args : Option (List String) := none
  create_args : Option (List String) := none
deriving Repr, DecidableEq

/-- Key membership in the fingerprint dictionary (`"k" in conda_dict`). -/
def CondaDict.hasKey (c : CondaDict) : String → Bool
  | "env_spec" => true
  | "env" => true
  | "env_path" => c.env_path.isSome
  | "env_hash" => c.env_hash.isSome
  | "deps" => c.deps.isSome
  | "spec" => c.spec.isSome
  | "spec_hash" => c.spec_hash.isSome
  | "channels" => c.channels.isSome
  | "install_args" => c.install_args.isSome
  | "create_args" => c.create_args.isSome
  | _ => false

/-- The effective conda name: the runner options value when truthy, else the
configuration value (`CondaEnvRunner.python_cache`, first lines). -/
def effectiveCondaName (opts : Options) (conf : Conf) : Option String :=
  if truthyS opts.conda_name then opts.conda_name else conf.conda_name

/-- `CondaEnvRunner.python_cache`, restricted to the `"conda"` entry it adds
to the base fingerprint. -/
def python_cache (sys : Sys) (opts : Options) (conf : Conf) : CondaDict :=
  let conda_name := effectiveCondaName opts conf
  let head : CondaDict :=
    if truthyS conda_name then
      { env_spec := "-n", env := conda_name.getD "" }
    else if truthyS conf.conda_env then
      let env_path := sys.resolve (conf.conda_env.getD "")
      { env_spec := "-n", env := (sys.yamlLoad env_path).name,
        env_path := some env_path,
        env_hash := some (hash_file sys (sys.resolve (conf.conda_env.getD ""))) }
    else
      { env_spec := "-p", env := conf.env_dir }
  { head with
    deps := if conf.conda_deps.isEmpty then none else some conf.conda_deps,
    spec := if truthyS conf.conda_spec then conf.conda_spec else none,
    spec_hash :=
      if truthyS conf.conda_spec then
        some (hash_file sys (sys.resolve (conf.conda_spec.getD "")))
      else none,
    channels := if truthyL conf.conda_channels then conf.conda_channels else none,
    install_args :=
      if truthyL conf.conda_install_args then conf.conda_install_args else none,
    create_args :=
      if truthyL conf.conda_create_args then conf.conda_create_args else none }

/-! ### `find_conda` -/

/-- A raised Python exception: a tox `Fail`, or a bare `KeyError`. -/
inductive PyError where
  | fail (msg : String)
  | keyError (key : String)
deriving Repr, DecidableEq

/-- `find_conda()`.  The probe `subprocess.run([conda, "-h"], stdout=DEVNULL)`
is invoked without `check=True`, so it can never raise
`CalledProcessError`: the `except` branch is dead and a found `which`
result is always returned. -/
def find_conda (sys : Sys) : Except PyError String :=
  if truthyS (sys.getenv "_CONDA_EXE") then
    .ok (sys.resolve ((sys.getenv "_CONDA_EXE").getD ""))
  else if truthyS (sys.getenv "CONDA_EXE") then
    .ok (sys.resolve ((sys.getenv "CONDA_EXE").getD ""))
  else if truthyS sys.which_conda then
    .ok (sys.resolve (sys.which_conda.getD ""))
  else
    .error (.fail "Failed to find 'conda' executable.")

/-! ### `shlex.split` (POSIX mode, `whitespace_split=True`, no comments) -/

/-- Lexer mode: outside quotes, in single quotes, in double quotes, after a
backslash outside quotes, after a backslash inside double quotes. -/
inductive SMode where
  | out | sq | dq | escO | escD
deriving Repr, DecidableEq

/-- Character-by-character `shlex` lexer.  `cur` is the token being built,
`started` whether a token is open (so `''` yields an empty token), `acc` the
tokens emitted so far.  An unterminated quote, which `shlex.split` rejects
with `ValueError`, is treated as closed at end of input; the command lines
built by this plugin never produce one. -/
def shlexCore : List Char → SMode → String → Bool → List String → List String
  | [], _, cur, started, acc => if started then acc ++ [cur] else acc
  | ch :: rest, .out, cur, started, acc =>
      if ch = ' ' ∨ ch = '\t' ∨ ch = '\n' ∨ ch = '\r' then
        if started then shlexCore rest .out "" false (acc ++ [cur])
        else shlexCore rest .out "" false acc
      else if ch = '\'' then shlexCore rest .sq cur true acc
      else if ch = '"' then shlexCore rest .dq cur true acc
      else if ch = '\\' then shlexCore rest .escO cur true acc
      else shlexCore rest .out (cur.push ch) true acc
  | ch :: rest, .sq, cur, _, acc =>
      if ch = '\'' then shlexCore rest .out cur true acc
      else shlexCore rest .sq (cur.push ch) true acc
  | ch :: rest, .dq, cur, _, acc =>
      if ch = '"' then shlexCore rest .out cur true acc
      else if ch = '\\' then shlexCore rest .escD cur true acc
      else shlexCore rest .dq (cur.push ch) true acc
  | ch :: rest, .escO, cur, _, acc => shlexCore rest .out (cur.push ch) true acc
  | ch :: rest, .escD, cur, _, acc =>
      if ch = '"' ∨ ch = '\\' then shlexCore rest .dq (cur.push ch) true acc
      else shlexCore rest .dq ((cur.push '\\').push ch) true acc

/-- `shlex.split(s)`. -/
def shlex_split (s : String) : List String := shlexCore s.data .out "" false []

/-! ### Command-line generation and `create_python_env` -/

/-- The f-string idiom `f"'{x}'"`. -/
def quoted (s : String) : String := "'" ++ s ++ "'"

/-- `CondaEnvRunner._generate_create_command`: the `conda create` command
line. -/
def _generate_create_command (conda_exe python : String) (c : CondaDict) : String :=
  let cmd := quoted conda_exe ++ " create " ++ c.env_spec ++ " " ++ quoted c.env
    ++ " " ++ python ++ " --yes --quiet"
  (c.create_args.getD []).foldl (fun cmd arg => cmd ++ " " ++ quoted arg) cmd

/-- Result of `_generate_env_create_command`: the command line and the YAML
document dumped into the temporary file. -/
structure EnvCreate where
  cmd : String
  tmpFile : EnvFile
deriving Repr, DecidableEq

/-- `CondaEnvRunner._generate_env_create_command`: loads the YAML at
`conda_cache_conf["env_path"]` (re-resolved), appends the python pin to its
`dependencies`, dumps it to a temporary file and builds the
`conda env create` command line.  When the fingerprint has no `"env_path"`
key the source raises `KeyError`; here that is `none`. -/
def _generate_env_create_command (sys : Sys) (conda_exe python : String)
    (c : CondaDict) : Option EnvCreate :=
  match c.env_path with
  | none => none
  | some p =>
      let env_path := sys.resolve p
      let env_file := sys.yamlLoad env_path
      some { cmd := quoted conda_exe ++ " env create --file " ++ quoted sys.tmpName
               ++ " --quiet --force",
             tmpFile := { env_file with dependencies := env_file.dependencies ++ [python] } }

/-- `CondaEnvRunner._generate_install_command`: `none` when the fingerprint
has neither `"deps"` nor `"spec"`, otherwise the `conda install` command
line. -/
def _generate_install_command (conda_exe python : String) (c : CondaDict) :
    Option String :=
  if c.deps.isNone && c.spec.isNone then none
  else
    let cmd := quoted conda_exe ++ " install --quiet --yes " ++ c.env_spec
      ++ " " ++ quoted c.env
    let cmd := (c.channels.getD []).foldl (fun cmd ch => cmd ++ " --channel " ++ ch) cmd
    let cmd := (c.install_args.getD []).foldl (fun cmd arg => cmd ++ " " ++ arg) cmd
    let cmd := cmd ++ " " ++ python
    let cmd := (c.deps.getD []).foldl (fun cmd dep => cmd ++ " " ++ dep) cmd
    some (match c.spec with
          | some sp => cmd ++ " --file=" ++ sp
          | none => cmd)

/-- The creation-command branch of `create_python_env`: the `conda_env`
configuration selects `_generate_env_create_command`, anything else
`_generate_create_command`.  Returns the command line and, in the first
branch, the YAML written to the temporary file. -/
def gen_create (sys : Sys) (opts : Options) (conf : Conf)
    (conda_exe python : String) : Option (String × Option EnvFile) :=
  let c := python_cache sys opts conf
  if truthyS conf.conda_env then
    (_generate_env_create_command sys conda_exe python c).map fun ec =>
      (ec.cmd, some ec.tmpFile)
  else
    some (_generate_create_command conda_exe python c, none)

/-- The text of `subprocess.CalledProcessError` interpolated into the `Fail`
messages. -/
def exitText (code : Nat) : String :=
  "Command returned non-zero exit status " ++ toString code ++ "."

/-- `CondaEnvRunner.create_python_env`.  `runner` maps a command's argument
vector to its exit code; the returned list records, in order, the argument
vectors actually passed to `subprocess.run`. -/
def create_python_env (sys : Sys) (opts : Options) (conf : Conf)
    (pythonVersion : String) (runner : List String → Nat) :
    Except PyError Unit × List (List String) :=
  match find_conda sys with
  | .error e => (.error e, [])
  | .ok conda_exe =>
      let python := "python=" ++ pythonVersion
      match gen_create sys opts conf conda_exe python with
      | none => (.error (.keyError "env_path"), [])
      | some (create_command, _) =>
          let args := shlex_split create_command
          if runner args ≠ 0 then
            (.error (.fail ("Failed to create '" ++ conf.env_dir
               ++ "' conda environment. Error: " ++ exitText (runner args))), [args])
          else
            match _generate_install_command conda_exe python
                (python_cache sys opts conf) with
            | none => (.ok (), [args])
            | some install_command =>
                let iargs := shlex_split install_command
                if runner iargs ≠ 0 then
                  (.error (.fail ("Failed to install dependencies in conda environment."
                     ++ " Error: " ++ exitText (runner iargs))), [args, iargs])
                else (.ok (), [args, iargs])

/-! ### The executor (`CondaEnvRunner.executor`) -/

/-- `tox.execute.api.ExecuteRequest`, restricted to the fields the plugin
touches. -/
structure ExecuteRequest where
  cmd : List String
  cwd : String
  env : List (String × String)
  stdin : String
  run_id : String
  allow : Option (List String)
deriving Repr, DecidableEq

/-- The function named get_conda_command_prefix inside `CondaEnvRunner.executor`. -/
def get_conda_command_head (sys : Sys) (opts : Options) (conf : Conf) :
    Except PyError (List String) :=
  (find_conda sys).map fun conda_exe =>
    let c := python_cache sys opts conf
    shlex_split (quoted conda_exe ++ " run " ++ c.env_spec ++ " " ++ quoted c.env
      ++ " --live-stream")

/-- `CondaExecutor.build_instance`: the request handed to
`LocalSubProcessExecuteInstance`. -/
def build_instance (sys : Sys) (opts : Options) (conf : Conf)
    (request : ExecuteRequest) : Except PyError ExecuteRequest :=
  (get_conda_command_head sys opts conf).map fun conda_cmd =>
    { cmd := conda_cmd ++ request.cmd,
      cwd := request.cwd,
      env := request.env,
      stdin := request.stdin,
      run_id := request.run_id,
      allow := request.allow }

/-! ### `_ensure_python_env_exists` and the environment queries -/

/-- The external state `_ensure_python_env_exists` observes: whether
`self.env_dir` exists on disk, the outcome of `create_python_env`, and the
outcome of `conda env list --json` (exit status plus parsed `"envs"` list). -/
structure EnsureCtx where
  dirExists : Bool
  createResult : Except PyError Unit
  envListResult : Except String (List String)
  env_dir : String

/-- `CondaEnvRunner._ensure_python_env_exists`, with `created` the incoming
`self._created` flag.  Returns the outcome (carrying the new `_created`
value) together with two action flags: whether `create_python_env` was
invoked and whether the `conda env list --json` subprocess ran. -/
def _ensure_python_env_exists (ctx : EnsureCtx) (created : Bool) :
    Except PyError Bool × Bool × Bool :=
  if !ctx.dirExists then
    (ctx.createResult.map fun _ => true, true, false)
  else if created then
    (.ok true, false, false)
  else
    match ctx.envListResult with
    | .error e =>
        (.error (.fail ("Failed to list conda environments. Error: " ++ e)), false, true)
    | .ok envs =>
        if ctx.env_dir ∈ envs then (.ok true, false, true)
        else
          (.error (.fail (ctx.env_dir
            ++ " already exists, but it is not a conda environment. Delete in"
            ++ " manually first.")), false, true)

/-- `CondaEnvRunner._call_python_in_conda_env`: ensure the environment
exists, then run `python -c <cmd>` through the executor; a nonzero exit
raises `Fail`.  `exec` maps the python command to (exit code, stdout,
stderr).  Flags as in `_ensure_python_env_exists`. -/
def _call_python_in_conda_env (ctx : EnsureCtx) (created : Bool) (cmd : String)
    (exec : String → Nat × String × String) :
    Except PyError String × Bool × Bool :=
  match _ensure_python_env_exists ctx created with
  | (.error e, didCreate, didList) => (.error e, didCreate, didList)
  | (.ok _, didCreate, didList) =>
      let (code, out, err) := exec cmd
      if code ≠ 0 then
        (.error (.fail ("Failed to execute operation '" ++ cmd ++ "'. Stderr: " ++ err)),
         didCreate, didList)
      else (.ok out, didCreate, didList)

/-- `CondaEnvRunner.env_python`. -/
def env_python (sys : Sys) (ctx : EnsureCtx) (created : Bool)
    (exec : String → Nat × String × String) : Except PyError String × Bool × Bool :=
  let (r, dc, dl) := _call_python_in_conda_env ctx created
    "import sys; print(sys.executable)" exec
  (r.map sys.resolve, dc, dl)

/-- `CondaEnvRunner.env_bin_dir`. -/
def env_bin_dir (sys : Sys) (ctx : EnsureCtx) (created : Bool)
    (exec : String → Nat × String × String) : Except PyError String × Bool × Bool :=
  let (r, dc, dl) := _call_python_in_conda_env ctx created
    "from sysconfig import get_paths; print(get_paths()[\"scripts\"])" exec
  (r.map sys.resolve, dc, dl)

/-- `CondaEnvRunner.env_site_package_dir`. -/
def env_site_package_dir (sys : Sys) (ctx : EnsureCtx) (created : Bool)
    (exec : String → Nat × String × String) : Except PyError String × Bool × Bool :=
  let (r, dc, dl) := _call_python_in_conda_env ctx created
    "from sysconfig import get_paths; print(get_paths()[\"purelib\"])" exec
  (r.map sys.resolve, dc, dl)

/-! ### `FilteredInfo.compare` (FilteredInfo.py)

Python dictionaries are association lists here; object identity and in-place
mutation are modelled by a heap of dictionaries addressed by index, so that
`value.copy()` (a fresh cell) and `value.pop(...)` (mutation of a cell) are
distinguishable from the caller's point of view. -/

/-- A Python dict (string keys, opaque string values). -/
abbrev PyDict := List (String × String)

/-- `d.pop(k, None)`: the dictionary without key `k`. -/
def dictPop (d : PyDict) (k : String) : PyDict := d.filter fun kv => kv.1 ≠ k

/-- The filtering configuration of a `FilteredInfo` instance. -/
structure FilteredInfo where
  filter_keys : Option (List String)
  filter_section : Option String
deriving Repr, DecidableEq

/-- `FilteredInfo.compare`.  `heap` holds the dictionaries, `r` the caller's
reference to `value`; `base` is the inherited `Info.compare`, applied to the
value that reaches it.  Returns the heap after the call and the result
yielded to the caller. -/
def FilteredInfo.compare {β : Type} (fi : FilteredInfo)
    (base : PyDict → String → Option String → β)
    (heap : List PyDict) (r : Nat) (section_ : String) (sub_section : Option String) :
    List PyDict × β :=
  if fi.filter_section.isNone || (fi.filter_section == some section_) then
    let orig := heap.getD r []
    let heap := heap ++ [orig]
    let r2 := heap.length - 1
    let filtered := (fi.filter_keys.getD []).foldl dictPop orig
    let heap := heap.set r2 filtered
    (heap, base filtered section_ sub_section)
  else
    (heap, base (heap.getD r []) section_ sub_section)

/-! ### Helper notions used by the claim statements -/

/-- Concatenation of the pieces contributed by a list of arguments, written
directly (not as a left fold): the claims describe command lines as a fixed
head followed by one piece per entry, in order. -/
def catMap {α : Type} (f : α → String) : List α → String
  | [] => ""
  | a :: as => f a ++ catMap f as

/-- A left fold that appends a separator and one piece per entry equals the
head followed by the concatenation of the pieces. -/
theorem foldl_append_catMap {α : Type} (f : α → String) (sep : String) (l : List α)
    (b : String) :
    l.foldl (fun cmd a => cmd ++ sep ++ f a) b = b ++ catMap (fun a => sep ++ f a) l := by
  induction l generalizing b with
  | nil => simp [catMap]
  | cons a as ih =>
      rw [List.foldl_cons, ih]
      simp [catMap, String.append_assoc]

/-- Python truthiness refines emptiness: a non-truthy optional list
contributes no entries. -/
theorem getD_eq_nil_of_not_truthyL (o : Option (List String)) (h : truthyL o = false) :
    o.getD [] = [] := by
  cases o with
  | none => rfl
  | some l => simpa [truthyL, List.isEmpty_iff] using h

/-- A truthy optional string is present. -/
theorem isSome_of_truthyS (o : Option String) (h : truthyS o = true) : o.isSome = true := by
  cases o <;> simp_all [truthyS]

/-- Presence of a value guarded by string truthiness. -/
theorem isSome_ite_truthyS (o : Option String) :
    (if truthyS o = true then o else none).isSome = truthyS o := by
  cases o <;> simp [truthyS]
  split <;> simp_all

/-- Presence of a value guarded by list truthiness. -/
theorem isSome_ite_truthyL (o : Option (List String)) :
    (if truthyL o = true then o else none).isSome = truthyL o := by
  cases o <;> simp [truthyL]
  split <;> simp_all

/-- Popping a list of keys one by one equals filtering all of them out. -/
theorem foldl_dictPop_eq_filter (keys : List String) (d : PyDict) :
    keys.foldl dictPop d = d.filter fun kv => decide (kv.1 ∉ keys) := by
  induction keys generalizing d with
  | nil => simp
  | cons k ks ih =>
      simp only [List.foldl, ih, dictPop, List.filter_filter]
      apply List.filter_congr
      intro kv _
      simp only [List.mem_cons, decide_not, Bool.and_comm]
      simp [not_or, And.comm]

/-- The fingerprint's `create_args` entries coincide with the configured
`conda_create_args` entries (an absent key and an empty configured list both
contribute none). -/
theorem python_cache_create_args (sys : Sys) (opts : Options) (conf : Conf) :
    ((python_cache sys opts conf).create_args).getD [] = conf.conda_create_args.getD [] := by
  unfold python_cache
  cases h : truthyL conf.conda_create_args with
  | true => split <;> simp [h]
  | false => split <;> simp [h, getD_eq_nil_of_not_truthyL _ h]

/-- When the effective `conda_name` is not set and `conda_env` is, the
fingerprint records the resolved `conda_env` path. -/
theorem python_cache_env_path (sys : Sys) (opts : Options) (conf : Conf)
    (h2 : truthyS (effectiveCondaName opts conf) = false)
    (h : truthyS conf.conda_env = true) :
    (python_cache sys opts conf).env_path = some (sys.resolve (conf.conda_env.getD "")) := by
  unfold python_cache
  simp [h, h2]

/-- When the effective `conda_name` is set, the fingerprint has no
`env_path` key. -/
theorem python_cache_env_path_none (sys : Sys) (opts : Options) (conf : Conf)
    (h2 : truthyS (effectiveCondaName opts conf) = true) :
    (python_cache sys opts conf).env_path = none := by
  unfold python_cache
  simp [h2]

/-! ### Concrete fixtures for witnesses and counterexamples -/

/-- A concrete ambient system. -/
def sysW : Sys :=
  { resolve := fun p => p,
    yamlLoad := fun _ => { name := "yamlenv", dependencies := ["numpy"] },
    readBytes := fun _ => [],
    cwd := "/cwd",
    getenv := fun _ => none,
    which_conda := some "/opt/conda/bin/conda",
    tmpName := "/proj/tox_conda_tmp1.yaml" }

/-- Runner options with no `conda_name`. -/
def optsW : Options := { conda_name := none }

/-- A configuration selecting the environment by `conda_name`. -/
def confA : Conf :=
  { conda_name := some "name1", conda_env := none, conda_spec := none, conda_deps := [],
    conda_channels := none, conda_install_args := none, conda_create_args := none,
    env_dir := "/w/.tox/py" }

/-- A configuration selecting the environment by `conda_env`. -/
def confB : Conf := { confA with conda_name := none, conda_env := some "env.yml" }

/-- A configuration selecting the environment by directory. -/
def confC : Conf := { confA with conda_name := none }

/-- A configuration in which `conda_name` and `conda_env` are both set. -/
def confD : Conf := { confB with conda_name := some "clash" }

/-! ### Claim theorems -/

/-- C5: for every configuration, the `"conda"` entry of the cache fingerprint
(a mapping from strings to strings or lists of strings, per the field types
of `CondaDict`) always contains the keys `"env_spec"` and `"env"`, contains
`"deps"` iff `conda_deps` is non-empty, contains `"spec"` and `"spec_hash"`
iff `conda_spec` is set (truthy), contains `"channels"` iff `conda_channels`
is set, and contains `"install_args"` iff `conda_install_args` is set. -/
theorem c5_cache_keys (sys : Sys) (opts : Options) (conf : Conf) :
    ((python_cache sys opts conf).hasKey "env_spec" = true)
    ∧ ((python_cache sys opts conf).hasKey "env" = true)
    ∧ ((python_cache sys opts conf).hasKey "deps" = true ↔ conf.conda_deps ≠ [])
    ∧ ((python_cache sys opts conf).hasKey "spec" = true ↔ truthyS conf.conda_spec = true)
    ∧ ((python_cache sys opts conf).hasKey "spec_hash" = true ↔ truthyS conf.conda_spec = true)
    ∧ ((python_cache sys opts conf).hasKey "channels" = true ↔ truthyL conf.conda_channels = true)
    ∧ ((python_cache sys opts conf).hasKey "install_args" = true
        ↔ truthyL conf.conda_install_args = true) := by
  unfold python_cache CondaDict.hasKey
  split <;>
    simp_all [List.isEmpty_iff, isSome_of_truthyS, isSome_ite_truthyS, isSome_ite_truthyL]

/-- C7: environment selection in the cache fingerprint follows a fixed
precedence — the effective `conda_name` (runner options before
configuration) gives `env_spec = "-n"` with that name; otherwise a set
`conda_env` gives `env_spec = "-n"` with the YAML file's `name`, the
resolved file path and its recorded hash (as computed by `hash_file`);
otherwise `env_spec = "-p"` with the environment directory. -/
theorem c7_env_selection (sys : Sys) (opts : Options) (conf : Conf) :
    (truthyS opts.conda_name = true → effectiveCondaName opts conf = opts.conda_name)
    ∧ (truthyS opts.conda_name = false → effectiveCondaName opts conf = conf.conda_name)
    ∧ (truthyS (effectiveCondaName opts conf) = true →
        (python_cache sys opts conf).env_spec = "-n"
        ∧ (python_cache sys opts conf).env = (effectiveCondaName opts conf).getD "")
    ∧ (truthyS (effectiveCondaName opts conf) = false → truthyS conf.conda_env = true →
        (python_cache sys opts conf).env_spec = "-n"
        ∧ (python_cache sys opts conf).env
            = (sys.yamlLoad (sys.resolve (conf.conda_env.getD ""))).name
        ∧ (python_cache sys opts conf).env_path = some (sys.resolve (conf.conda_env.getD ""))
        ∧ (python_cache sys opts conf).env_hash
            = some (hash_file sys (sys.resolve (conf.conda_env.getD ""))))
    ∧ (truthyS (effectiveCondaName opts conf) = false → truthyS conf.conda_env = false →
        (python_cache sys opts conf).env_spec = "-p"
        ∧ (python_cache sys opts conf).env = conf.env_dir) := by
  refine ⟨fun h => by simp [effectiveCondaName, h], fun h => by simp [effectiveCondaName, h],
    ?_, ?_, ?_⟩ <;> intro h <;> try intro h2
  · unfold python_cache
    simp [h]
  · unfold python_cache
    simp [h, h2]
  · unfold python_cache
    simp [h, h2]

/-- Witness for C7: all three selection cases at concrete configurations. -/
theorem c7_witness :
    ((python_cache sysW optsW confA).env_spec = "-n"
      ∧ (python_cache sysW optsW confA).env = (effectiveCondaName optsW confA).getD "")
    ∧ ((python_cache sysW optsW confB).env_spec = "-n"
      ∧ (python_cache sysW optsW confB).env
          = (sysW.yamlLoad (sysW.resolve (confB.conda_env.getD ""))).name
      ∧ (python_cache sysW optsW confB).env_path = some (sysW.resolve (confB.conda_env.getD ""))
      ∧ (python_cache sysW optsW confB).env_hash
          = some (hash_file sysW (sysW.resolve (confB.conda_env.getD ""))))
    ∧ ((python_cache sysW optsW confC).env_spec = "-p"
      ∧ (python_cache sysW optsW confC).env = confC.env_dir) :=
  ⟨(c7_env_selection sysW optsW confA).2.2.1 (by decide),
   (c7_env_selection sysW optsW confB).2.2.2.1 (by decide) (by decide),
   (c7_env_selection sysW optsW confC).2.2.2.2 (by decide) (by decide)⟩

/-- C4: `find_conda` returns the resolved path from `_CONDA_EXE` when that
variable is set (truthy), otherwise from `CONDA_EXE` when set, otherwise the
resolved result of the PATH search for `conda`; it raises
`Fail("Failed to find 'conda' executable.")` exactly when all three sources
yield nothing. -/
theorem c4_find_conda (sys : Sys) :
    (truthyS (sys.getenv "_CONDA_EXE") = true →
      find_conda sys = .ok (sys.resolve ((sys.getenv "_CONDA_EXE").getD "")))
    ∧ (truthyS (sys.getenv "_CONDA_EXE") = false → truthyS (sys.getenv "CONDA_EXE") = true →
      find_conda sys = .ok (sys.resolve ((sys.getenv "CONDA_EXE").getD "")))
    ∧ (truthyS (sys.getenv "_CONDA_EXE") = false → truthyS (sys.getenv "CONDA_EXE") = false →
      truthyS sys.which_conda = true →
      find_conda sys = .ok (sys.resolve (sys.which_conda.getD "")))
    ∧ (find_conda sys = .error (.fail "Failed to find 'conda' executable.") ↔
      (truthyS (sys.getenv "_CONDA_EXE") = false ∧ truthyS (sys.getenv "CONDA_EXE") = false
        ∧ truthyS sys.which_conda = false)) := by
  unfold find_conda
  refine ⟨fun h => by simp [h], fun h h2 => by simp [h, h2], fun h h2 h3 => by simp [h, h2, h3], ?_⟩
  split <;> simp_all
  split <;> simp_all

/-- A concrete system in which only `CONDA_EXE` is set. -/
def sysEnvVar : Sys :=
  { sysW with getenv := fun v => if v = "CONDA_EXE" then some "/env/conda" else none }

/-- A concrete system in which no source yields a conda executable. -/
def sysNoConda : Sys := { sysW with which_conda := none }

/-- Witness for C4: the `CONDA_EXE` case, the PATH-search case and the
failure case at concrete systems. -/
theorem c4_witness :
    find_conda sysEnvVar = .ok (sysEnvVar.resolve ((sysEnvVar.getenv "CONDA_EXE").getD ""))
    ∧ find_conda sysW = .ok (sysW.resolve (sysW.which_conda.getD ""))
    ∧ find_conda sysNoConda = .error (.fail "Failed to find 'conda' executable.") :=
  ⟨(c4_find_conda sysEnvVar).2.1 (by decide) (by decide),
   (c4_find_conda sysW).2.2.1 (by decide) (by decide) (by decide),
   ((c4_find_conda sysNoConda).2.2.2).mpr ⟨by decide, by decide, by decide⟩⟩

/-- C1 (counterexample to the claim as stated): in a configuration in which
`conda_env` is set but `conda_name` is set as well, `create_python_env`
builds no `conda env create` command at all — the fingerprint has no
`env_path` key and the source raises `KeyError`. -/
theorem c1_counterexample :
    truthyS confD.conda_env = true
    ∧ gen_create sysW optsW confD "/opt/conda/bin/conda" "python=3.9" = none := by decide

/-- C1 (amended): with `conda_env` not set, `create_python_env` builds
`'<conda>' create <env_spec> '<env>' python=<version> --yes --quiet`
followed by each `conda_create_args` entry in order, each single-quoted;
with `conda_env` set and no effective `conda_name` (when both are set the
fingerprint lacks `env_path` and the source raises `KeyError` instead), it
builds `'<conda>' env create --file '<tmp>' --quiet --force`, where `<tmp>`
is a temporary copy of the (resolved) `conda_env` YAML file whose
`dependencies` list has `python=<version>` appended as its last element. -/
theorem c1_create_commands (sys : Sys) (opts : Options) (conf : Conf) (conda_exe ver : String) :
    (truthyS conf.conda_env = false →
      gen_create sys opts conf conda_exe ("python=" ++ ver) =
        some (quoted conda_exe ++ " create " ++ (python_cache sys opts conf).env_spec ++ " "
          ++ quoted (python_cache sys opts conf).env ++ " " ++ ("python=" ++ ver)
          ++ " --yes --quiet"
          ++ catMap (fun a => " " ++ quoted a) (conf.conda_create_args.getD []), none))
    ∧ (truthyS conf.conda_env = true → truthyS (effectiveCondaName opts conf) = false →
      gen_create sys opts conf conda_exe ("python=" ++ ver) =
        some (quoted conda_exe ++ " env create --file " ++ quoted sys.tmpName
            ++ " --quiet --force",
          some { name := (sys.yamlLoad (sys.resolve (sys.resolve (conf.conda_env.getD "")))).name,
                 dependencies :=
                   (sys.yamlLoad (sys.resolve (sys.resolve (conf.conda_env.getD "")))).dependencies
                     ++ ["python=" ++ ver] })) := by
  constructor
  · intro h
    unfold gen_create _generate_create_command
    simp only [h, Bool.false_eq_true, if_false]
    rw [foldl_append_catMap, python_cache_create_args]
  · intro h h2
    unfold gen_create _generate_env_create_command
    simp only [h, if_true]
    rw [python_cache_env_path sys opts conf h2 h]
    simp [String.append_assoc]

/-- Witness for C1: both branches at concrete configurations. -/
theorem c1_witness :
    (gen_create sysW optsW confA "/opt/conda/bin/conda" ("python=" ++ "3.9") =
      some (quoted "/opt/conda/bin/conda" ++ " create "
        ++ (python_cache sysW optsW confA).env_spec ++ " "
        ++ quoted (python_cache sysW optsW confA).env ++ " " ++ ("python=" ++ "3.9")
        ++ " --yes --quiet"
        ++ catMap (fun a => " " ++ quoted a) (confA.conda_create_args.getD []), none))
    ∧ (gen_create sysW optsW confB "/opt/conda/bin/conda" ("python=" ++ "3.9") =
      some (quoted "/opt/conda/bin/conda" ++ " env create --file " ++ quoted sysW.tmpName
          ++ " --quiet --force",
        some { name :=
                 (sysW.yamlLoad (sysW.resolve (sysW.resolve (confB.conda_env.getD "")))).name,
               dependencies :=
                 (sysW.yamlLoad
                   (sysW.resolve (sysW.resolve (confB.conda_env.getD "")))).dependencies
                   ++ ["python=" ++ "3.9"] })) :=
  ⟨(c1_create_commands sysW optsW confA "/opt/conda/bin/conda" "3.9").1 (by decide),
   (c1_create_commands sysW optsW confB "/opt/conda/bin/conda" "3.9").2 (by decide) (by decide)⟩

/-- `_generate_install_command` yields no command exactly when the
fingerprint has neither `deps` nor `spec`, whatever the executable and
python pin are. -/
theorem install_none_iff (conda_exe python : String) (c : CondaDict) :
    _generate_install_command conda_exe python c = none
      ↔ (c.deps.isNone && c.spec.isNone) = true := by
  unfold _generate_install_command
  split <;> simp_all

/-- C2: `_generate_install_command` returns a command iff the fingerprint
contains `"deps"` or `"spec"`; the command is
`'<conda>' install --quiet --yes <env_spec> '<env>'` followed, in order, by
`--channel <c>` per channel, each `conda_install_args` entry, the python
pin, each dependency, and `--file=<spec>` when a spec file is configured;
and when it returns nothing, `create_python_env` runs no second (install)
subprocess. -/
theorem c2_install_command (conda_exe python : String) (c : CondaDict) :
    ((_generate_install_command conda_exe python c).isSome
        = (c.hasKey "deps" || c.hasKey "spec"))
    ∧ (c.deps.isSome = true ∨ c.spec.isSome = true →
        _generate_install_command conda_exe python c =
          some (quoted conda_exe ++ " install --quiet --yes " ++ c.env_spec ++ " "
            ++ quoted c.env
            ++ catMap (fun ch => " --channel " ++ ch) (c.channels.getD [])
            ++ catMap (fun a => " " ++ a) (c.install_args.getD [])
            ++ " " ++ python
            ++ catMap (fun d => " " ++ d) (c.deps.getD [])
            ++ (match c.spec with
                | some sp => " --file=" ++ sp
                | none => "")))
    ∧ (∀ (sys : Sys) (opts : Options) (conf : Conf) (ver : String)
          (runner : List String → Nat),
        _generate_install_command conda_exe python (python_cache sys opts conf) = none →
        (create_python_env sys opts conf ver runner).2.length ≤ 1) := by
  refine ⟨?_, ?_, ?_⟩
  · unfold _generate_install_command CondaDict.hasKey
    cases c.deps <;> cases c.spec <;> simp
  · intro h
    have hc : (c.deps.isNone && c.spec.isNone) = false := by
      rcases h with h | h <;> cases hd : c.deps <;> cases hs : c.spec <;> simp_all
    unfold _generate_install_command
    simp only [hc, Bool.false_eq_true, if_false]
    rw [foldl_append_catMap, foldl_append_catMap, foldl_append_catMap]
    cases c.spec <;> simp [String.append_assoc]
  · intro sys opts conf ver runner h
    rw [install_none_iff] at h
    unfold create_python_env
    cases hfc : find_conda sys with
    | error e => simp
    | ok ce =>
        simp only []
        cases hg : gen_create sys opts conf ce ("python=" ++ ver) with
        | none => simp
        | some p =>
            obtain ⟨cc, tf⟩ := p
            have hi : _generate_install_command ce ("python=" ++ ver)
                (python_cache sys opts conf) = none := (install_none_iff _ _ _).mpr h
            simp only [hi]
            split <;> simp

/-- A concrete fingerprint with dependencies, spec file, channels and
install arguments. -/
def cInst : CondaDict :=
  { env_spec := "-n", env := "e", deps := some ["pkg1", "pkg2"], spec := some "spec.txt",
    channels := some ["cA", "cB"], install_args := some ["--copy"] }

/-- Witness for C2: the generated install command at a concrete fingerprint,
and the absence of an install subprocess at a concrete dependency-free
configuration. -/
theorem c2_witness :
    (_generate_install_command "conda" "python=3.9" cInst =
      some (quoted "conda" ++ " install --quiet --yes " ++ cInst.env_spec ++ " "
        ++ quoted cInst.env
        ++ catMap (fun ch => " --channel " ++ ch) (cInst.channels.getD [])
        ++ catMap (fun a => " " ++ a) (cInst.install_args.getD [])
        ++ " " ++ "python=3.9"
        ++ catMap (fun d => " " ++ d) (cInst.deps.getD [])
        ++ (match cInst.spec with
            | some sp => " --file=" ++ sp
            | none => "")))
    ∧ (create_python_env sysW optsW confA "3.9" (fun _ => 0)).2.length ≤ 1 :=
  ⟨(c2_install_command "conda" "python=3.9" cInst).2.1 (Or.inl rfl),
   (c2_install_command "conda" "python=3.9" cInst).2.2 sysW optsW confA "3.9" (fun _ => 0)
     (by decide)⟩

/-- C3 (counterexample to the claim as stated): with `conda_name` and
`conda_env` both set, `create_python_env` raises an error (`KeyError`, not a
`Fail` naming a step) although no subprocess ran at all — in particular
every subprocess that ran exited with code zero. -/
theorem c3_counterexample :
    create_python_env sysW optsW confD "3.9" (fun _ => 0)
      = (.error (.keyError "env_path"), []) := rfl

/-- C3 (amended): for every invocation of `create_python_env` in which the
creation command is generated (when `conda_env` and an effective
`conda_name` are both set the source raises `KeyError` before any
subprocess), a nonzero exit of the creation subprocess raises `Fail`
identifying the creation step, a nonzero exit of the installation
subprocess raises `Fail` identifying the installation step, and if every
subprocess that runs exits zero no error is raised. -/
theorem c3_exit_codes (sys : Sys) (opts : Options) (conf : Conf) (ver : String)
    (runner : List String → Nat) (conda cc : String) (tf : Option EnvFile)
    (hfc : find_conda sys = .ok conda)
    (hgen : gen_create sys opts conf conda ("python=" ++ ver) = some (cc, tf)) :
    (runner (shlex_split cc) ≠ 0 →
      (create_python_env sys opts conf ver runner).1 =
        .error (.fail ("Failed to create '" ++ conf.env_dir ++ "' conda environment. Error: "
          ++ exitText (runner (shlex_split cc)))))
    ∧ (∀ ic, _generate_install_command conda ("python=" ++ ver) (python_cache sys opts conf)
          = some ic →
        runner (shlex_split cc) = 0 → runner (shlex_split ic) ≠ 0 →
        (create_python_env sys opts conf ver runner).1 =
          .error (.fail ("Failed to install dependencies in conda environment. Error: "
            ++ exitText (runner (shlex_split ic)))))
    ∧ (runner (shlex_split cc) = 0 →
        (∀ ic, _generate_install_command conda ("python=" ++ ver) (python_cache sys opts conf)
            = some ic → runner (shlex_split ic) = 0) →
        (create_python_env sys opts conf ver runner).1 = .ok ()) := by
  refine ⟨?_, ?_, ?_⟩
  · intro hnz
    unfold create_python_env
    simp [hfc, hgen, hnz]
  · intro ic hic h0 hnz
    unfold create_python_env
    simp [hfc, hgen, h0, hic, hnz]
  · intro h0 hall
    unfold create_python_env
    cases hi : _generate_install_command conda ("python=" ++ ver) (python_cache sys opts conf) with
    | none => simp [hfc, hgen, h0, hi]
    | some ic => simp [hfc, hgen, h0, hi, hall ic hi]

/-- Witness for C3: at a concrete configuration, with every subprocess
exiting zero, `create_python_env` reports success. -/
theorem c3_witness :
    (create_python_env sysW optsW confA "3.9" (fun _ => 0)).1 = .ok () :=
  (c3_exit_codes sysW optsW confA "3.9" (fun _ => 0) "/opt/conda/bin/conda"
      "'/opt/conda/bin/conda' create -n 'name1' python=3.9 --yes --quiet" none
      rfl rfl).2.2 rfl (fun _ _ => rfl)

/-- A system in which the configured spec file `/a/b/spec.txt` (bytes `"1"`)
differs from the same-named file `/c/spec.txt` in the working directory
`/c` (bytes `"2"`). -/
def sysHash : Sys :=
  { sysW with
    cwd := "/c",
    readBytes := fun p =>
      if p = "/a/b/spec.txt" then [49] else if p = "/c/spec.txt" then [50] else [] }

/-- A configuration whose `conda_spec` is the absolute path `/a/b/spec.txt`. -/
def confHash : Conf := { confC with conda_spec := some "/a/b/spec.txt" }

set_option maxRecDepth 8192 in
/-- C6 (the code contradicts the claim): `hash_file` opens `file.name` — the
basename — so the recorded `spec_hash` is the SHA-1 of the same-named file
in the process working directory, not of the configured file's content. -/
theorem c6_hash_wrong_file :
    ((python_cache sysHash optsW confHash).spec_hash
        = some (sha1_hex (sysHash.readBytes "/c/spec.txt")))
    ∧ ((python_cache sysHash optsW confHash).spec_hash
        ≠ some (sha1_hex (sysHash.readBytes (sysHash.resolve (confHash.conda_spec.getD ""))))) := by
  constructor
  · decide
  · decide

/-- C8: every command executed through the runner's executor is the original
request's command list prefixed with the tokens of
`'<conda>' run <env_spec> '<env>' --live-stream`, and the request's `cwd`,
`env`, `stdin`, `run_id` and `allow` fields are passed to the underlying
subprocess instance unchanged. -/
theorem c8_executor (sys : Sys) (opts : Options) (conf : Conf) (req : ExecuteRequest)
    (conda : String) (h : find_conda sys = .ok conda) :
    build_instance sys opts conf req = .ok
      { cmd := shlex_split (quoted conda ++ " run " ++ (python_cache sys opts conf).env_spec
          ++ " " ++ quoted (python_cache sys opts conf).env ++ " --live-stream") ++ req.cmd,
        cwd := req.cwd, env := req.env, stdin := req.stdin,
        run_id := req.run_id, allow := req.allow } := by
  unfold build_instance get_conda_command_head
  simp [h, Except.map]

/-- A concrete execute request. -/
def reqW : ExecuteRequest :=
  { cmd := ["pytest", "-q"], cwd := "/w", env := [("A", "1")], stdin := "api",
    run_id := "run-1", allow := none }

/-- Witness for C8 at a concrete system, configuration and request. -/
theorem c8_witness :
    build_instance sysW optsW confC reqW = .ok
      { cmd := shlex_split (quoted "/opt/conda/bin/conda" ++ " run "
          ++ (python_cache sysW optsW confC).env_spec
          ++ " " ++ quoted (python_cache sysW optsW confC).env ++ " --live-stream") ++ reqW.cmd,
        cwd := reqW.cwd, env := reqW.env, stdin := reqW.stdin,
        run_id := reqW.run_id, allow := reqW.allow } :=
  c8_executor sysW optsW confC reqW "/opt/conda/bin/conda" rfl

/-- C9: for every environment query (`env_python`, `env_bin_dir`,
`env_site_package_dir`, all of which run `_call_python_in_conda_env` and
hence `_ensure_python_env_exists` first): a missing environment directory
triggers creation (and no listing subprocess); an existing directory that is
not among the tool's listed environments raises `Fail` with no creation
attempted; a successful check or creation sets `_created`, and with
`_created` set a later query performs neither the listing check nor a
creation. -/
theorem c9_ensure_env (sys : Sys) (ctx : EnsureCtx) (created : Bool) (cmd : String)
    (exec : String → Nat × String × String) :
    (ctx.dirExists = false →
      (_ensure_python_env_exists ctx created).2 = (true, false)
      ∧ (_ensure_python_env_exists ctx created).1 = ctx.createResult.map (fun _ => true))
    ∧ (ctx.dirExists = true → created = false → ∀ envs,
        ctx.envListResult = .ok envs → ctx.env_dir ∉ envs →
        _ensure_python_env_exists ctx created
          = (.error (.fail (ctx.env_dir
              ++ " already exists, but it is not a conda environment. Delete in"
              ++ " manually first.")), false, true))
    ∧ (∀ b, (_ensure_python_env_exists ctx created).1 = .ok b → b = true)
    ∧ (ctx.dirExists = true → _ensure_python_env_exists ctx true = (.ok true, false, false))
    ∧ ((_call_python_in_conda_env ctx created cmd exec).2
        = (_ensure_python_env_exists ctx created).2)
    ∧ (∀ e, (_ensure_python_env_exists ctx created).1 = .error e →
        (_call_python_in_conda_env ctx created cmd exec).1 = .error e)
    ∧ ((env_python sys ctx created exec).2
        = (_call_python_in_conda_env ctx created "import sys; print(sys.executable)" exec).2)
    ∧ ((env_bin_dir sys ctx created exec).2
        = (_call_python_in_conda_env ctx created
            "from sysconfig import get_paths; print(get_paths()[\"scripts\"])" exec).2)
    ∧ ((env_site_package_dir sys ctx created exec).2
        = (_call_python_in_conda_env ctx created
            "from sysconfig import get_paths; print(get_paths()[\"purelib\"])" exec).2) := by
  refine ⟨?_, ?_, ?_, ?_, ?_, ?_, ?_, ?_, ?_⟩
  · intro h
    unfold _ensure_python_env_exists
    simp [h]
  · intro h hc envs he hnm
    unfold _ensure_python_env_exists
    simp [h, hc, he, hnm]
  · intro b hb
    unfold _ensure_python_env_exists at hb
    by_cases h : ctx.dirExists <;> simp [h] at hb
    · by_cases hc : created <;> simp [hc] at hb
      · exact hb
      · cases he : ctx.envListResult with
        | error e => simp [he] at hb
        | ok envs =>
            simp [he] at hb
            by_cases hm : ctx.env_dir ∈ envs <;> simp [hm] at hb
            exact hb
    · cases hr : ctx.createResult with
      | error e => simp [hr, Except.map] at hb
      | ok u => simp [hr, Except.map] at hb; exact hb
  · intro h
    unfold _ensure_python_env_exists
    simp [h]
  · rcases hE : _ensure_python_env_exists ctx created with ⟨r, dc, dl⟩
    cases r with
    | error e => simp [_call_python_in_conda_env, hE]
    | ok b =>
        unfold _call_python_in_conda_env
        rw [hE]
        rcases exec cmd with ⟨code, out, err⟩
        by_cases hc : code = 0 <;> simp [hc]
  · intro e he
    rcases hE : _ensure_python_env_exists ctx created with ⟨r, dc, dl⟩
    rw [hE] at he
    simp at he
    subst he
    simp [_call_python_in_conda_env, hE]
  · rcases h : _call_python_in_conda_env ctx created
      "import sys; print(sys.executable)" exec with ⟨r, dc, dl⟩
    simp [env_python, h]
  · rcases h : _call_python_in_conda_env ctx created
      "from sysconfig import get_paths; print(get_paths()[\"scripts\"])" exec with ⟨r, dc, dl⟩
    simp [env_bin_dir, h]
  · rcases h : _call_python_in_conda_env ctx created
      "from sysconfig import get_paths; print(get_paths()[\"purelib\"])" exec with ⟨r, dc, dl⟩
    simp [env_site_package_dir, h]

/-- A context in which the environment directory does not exist. -/
def ctxA : EnsureCtx :=
  { dirExists := false, createResult := .ok (), envListResult := .ok ["/other"],
    env_dir := "/w/.tox/py" }

/-- A context in which the directory exists but is not a listed conda
environment. -/
def ctxB : EnsureCtx := { ctxA with dirExists := true }

/-- Witness for C9: missing directory triggers creation without listing; an
unlisted existing directory fails without creation; with `_created` set the
query skips both. -/
theorem c9_witness :
    ((_ensure_python_env_exists ctxA false).2 = (true, false))
    ∧ (_ensure_python_env_exists ctxB false
        = (.error (.fail ("/w/.tox/py"
            ++ " already exists, but it is not a conda environment. Delete in"
            ++ " manually first.")), false, true))
    ∧ (_ensure_python_env_exists ctxB true = (.ok true, false, false)) :=
  ⟨((c9_ensure_env sysW ctxA false "x" (fun _ => (0, "", ""))).1 rfl).1,
   (c9_ensure_env sysW ctxB false "x" (fun _ => (0, "", ""))).2.1 rfl rfl ["/other"] rfl
     (by decide),
   (c9_ensure_env sysW ctxB true "x" (fun _ => (0, "", ""))).2.2.2.1 rfl⟩

/-- Writing a fresh cell appended past the end of the heap leaves every
existing cell readable unchanged. -/
theorem getD_set_append (heap : List PyDict) (x y : PyDict) (r : Nat)
    (hr : r < heap.length) :
    (((heap ++ [x]).set heap.length y).getD r []) = heap.getD r [] := by
  have hne : ¬(heap.length = r) := by omega
  simp [List.getD, List.getElem?_set, hne, List.getElem?_append, hr]

/-- C10: `FilteredInfo.compare` removes the configured filter keys from the
compared value exactly when `filter_section` is unset or equals the compared
section, performs the removal on a copy so the caller's mapping (heap cell
`r`) is never mutated, and otherwise yields the base `Info.compare` result
on the filtered value. -/
theorem c10_filtered_compare {β : Type} (fi : FilteredInfo)
    (base : PyDict → String → Option String → β)
    (heap : List PyDict) (r : Nat) (section_ : String) (sub_section : Option String)
    (hr : r < heap.length) :
    ((fi.compare base heap r section_ sub_section).1.getD r [] = heap.getD r [])
    ∧ ((fi.compare base heap r section_ sub_section).2 =
        base (if fi.filter_section.isNone || (fi.filter_section == some section_)
              then (heap.getD r []).filter (fun kv => decide (kv.1 ∉ fi.filter_keys.getD []))
              else heap.getD r []) section_ sub_section) := by
  unfold FilteredInfo.compare
  by_cases hc : (fi.filter_section.isNone || (fi.filter_section == some section_)) = true
  · simp only [hc, if_true]
    constructor
    · have hlen : (heap ++ [heap.getD r []]).length - 1 = heap.length := by simp
      rw [hlen, getD_set_append heap _ _ r hr]
    · rw [foldl_dictPop_eq_filter]
  · simp [hc]

/-- A concrete filter configuration. -/
def fiW : FilteredInfo := { filter_keys := some ["drop1"], filter_section := some "ToxEnv:py" }

/-- A concrete one-cell heap. -/
def heapW : List PyDict := [[("drop1", "a"), ("keep", "b")]]

/-- Witness for C10 at a concrete filter, heap and section. -/
theorem c10_witness :
    ((fiW.compare (fun d _ _ => d) heapW 0 "ToxEnv:py" none).1.getD 0 [] = heapW.getD 0 [])
    ∧ ((fiW.compare (fun d _ _ => d) heapW 0 "ToxEnv:py" none).2 =
        (fun (d : PyDict) (_ : String) (_ : Option String) => d)
          (if fiW.filter_section.isNone || (fiW.filter_section == some "ToxEnv:py")
           then (heapW.getD 0 []).filter (fun kv => decide (kv.1 ∉ fiW.filter_keys.getD []))
           else heapW.getD 0 []) "ToxEnv:py" none) :=
  c10_filtered_compare fiW (fun d _ _ => d) heapW 0 "ToxEnv:py" none (by decide)

end ToxConda
